import Mathlib

/-!
Shallow embedding of the tsd-file-api request handlers
(`src/tsdfileapi/api.py`) and proofs about their behaviour.

Conventions used throughout:

* file contents are byte lists (`List Nat`), small string-keyed association
  lists model directories, and Python exceptions become explicit control flow;
* collaborators that live outside `src/` (`utils.py`, `auth.py`,
  `resumables.py`, tornado, libmagic, md5) enter either as function arguments
  or, where a claim depends on their behaviour, as definitions modelled from
  the specification and marked as such;
* Python `None` becomes `Option.none`, and the distinction between a value
  being falsy and an attribute raising `AttributeError` is modelled where the
  source relies on it.
-/

namespace TsdFileApi

/-- Python `str.split(sep)` for a single-character separator, on the character
list of the string.  `"".split(sep)` is `[""]`, and separators at the ends
produce empty pieces, exactly as in Python. -/
def pySplitChars (sep : Char) : List Char → List (List Char)
  | [] => [[]]
  | c :: cs =>
    let rest := pySplitChars sep cs
    if c = sep then [] :: rest
    else
      match rest with
      | [] => [[c]]
      | r :: rs => (c :: r) :: rs

/-- Python `str.split(sep)` for a single-character separator. -/
def pySplit (sep : Char) (s : String) : List String :=
  (pySplitChars sep s.toList).map fun l => String.mk l

/-- ASCII decimal digit test. -/
def isDigitChar (c : Char) : Bool :=
  48 ≤ c.toNat && c.toNat ≤ 57

/-- Python `int(s)` as used on the pieces of a `Range` header: it succeeds
exactly on nonempty digit strings, and every other value raises `ValueError`,
modelled as `none`.  (Python also accepts sign characters and surrounding
whitespace, which never occur in the headers the handlers parse.) -/
def pyInt (s : String) : Option Nat :=
  let cs := s.toList
  if cs ≠ [] ∧ cs.all isDigitChar then
    some (cs.foldl (fun acc c => 10 * acc + (c.toNat - 48)) 0)
  else none

/-- `fd.read(n)` on a regular file whose bytes are `file` with the cursor at
`pos`: returns the next `min n (file.length - pos)` bytes. -/
def fileRead (file : List Nat) (pos n : Nat) : List Nat :=
  (file.drop pos).take n

/-- The `while data and sent <= bytes_to_read:` loop of
`FileStreamerHandler.get` (api.py 480-490).  `pos` is the file cursor after
the most recent `fd.read`, `data` is what that read returned, and `sent` is
the running counter that the source increments by the chunk size `C` right
after each read.  The caller passes fuel `B + 1`, which is never exhausted
because the loop stops once `sent` exceeds `B` and `sent` grows by `C ≥ 1`
whenever a nonempty read is possible. -/
def rangeSendLoop (file : List Nat) (C B : Nat) :
    Nat → Nat → Nat → List Nat → List Nat
  | 0, _, _, _ => []
  | fuel + 1, pos, sent, data =>
    if data ≠ [] ∧ sent ≤ B then
      let next := fileRead file pos C
      data ++ rangeSendLoop file C B fuel (pos + next.length) (sent + C) next
    else []

/-- Result of the byte-range branch of `FileStreamerHandler.get`: the HTTP
status, the `Content-Length` header if one was set, the file bytes streamed
through `self.write(data)`, and the JSON error envelope if the request ended
in the `except` clause. -/
structure ExportRangeResult where
  status : Nat
  contentLength : Option Nat
  body : List Nat
  message : Option String
  deriving DecidableEq, Repr

/-- The part of the `Range` branch after the `If-Range` check
(api.py 455-490): parse the header, reject (in intent) multipart ranges with
405, reject `end > size` with 416, then stream `bytes_to_read` bytes in
chunks of the configured `CHUNK_SIZE`. -/
def exportRangeGetAfterEtag (chunkSize : Nat) (file : List Nat)
    (rangeValue : String) : ExportRangeResult :=
  let full_file_size := file.length
  let start_and_end := pySplit '-' ((pySplit '=' rangeValue).getLastD "")
  if "," ∈ start_and_end then
    { status := 405, contentLength := none, body := [],
      message := some "Multipart byte range requests not supported" }
  else
    match pyInt (start_and_end.headD "") with
    | none =>
      { status := 200, contentLength := none, body := [],
        message := some "Unknown error, please contact TSD" }
    | some client_start =>
      let client_end :=
        match start_and_end[1]? with
        | some s => (pyInt s).getD (full_file_size - 1)
        | none => full_file_size - 1
      if client_end > full_file_size then
        { status := 416, contentLength := none, body := [],
          message := some "Unknown error, please contact TSD" }
      else
        let bytes_to_read := client_end - client_start + 1
        let C := if chunkSize > bytes_to_read then bytes_to_read else chunkSize
        let data := fileRead file client_start C
        let body := rangeSendLoop file C bytes_to_read (bytes_to_read + 1)
          (client_start + data.length) C data
        { status := 200, contentLength := some bytes_to_read, body := body,
          message := none }

/-- `FileStreamerHandler.compute_etag` (api.py 352-374): the md5 hex digest of
`str(mtime)`.  The md5 implementation is outside the repository and enters as
the function argument `md5hex`. -/
def compute_etag (md5hex : String → String) (mtimeStr : String) :
    Option String :=
  some (md5hex mtimeStr)

/-- The `elif Range in self.request.headers` branch of
`FileStreamerHandler.get` (api.py 447-490): first the `If-Range` comparison
against the computed Etag (mismatch raises after `set_status(400)`), then the
range parsing and the send loop. -/
def exportRangeGet (chunkSize : Nat) (file : List Nat) (rangeValue : String)
    (ifRange : Option String) (computedEtag : Option String) :
    ExportRangeResult :=
  match ifRange with
  | some provided =>
    if some provided ≠ computedEtag then
      { status := 400, contentLength := none, body := [],
        message :=
          some "The resource has changed, get everything from the start again" }
    else exportRangeGetAfterEtag chunkSize file rangeValue
  | none => exportRangeGetAfterEtag chunkSize file rangeValue

/-- The ten bytes `0123456789`, the file of spec scenario S3. -/
def tenDigits : List Nat := [48, 49, 50, 51, 52, 53, 54, 55, 56, 57]

/-- Claim C2: a valid `Range: bytes=a-b` is claimed to be served in full with
`Content-Length` equal to `b - a + 1`.  Evaluating the embedded handler at a
chunk size of 2 on the 10-byte file `0123456789` with `Range: bytes=0-4`
shows the code setting `Content-Length: 5` while streaming only the four
bytes `0123`: the send loop stops as soon as the counter `sent` exceeds
`bytes_to_read`, dropping the final short chunk whenever the chunk size does
not divide the requested length. -/
theorem exportRangeGet_drops_final_chunk :
    (exportRangeGet 2 tenDigits "bytes=0-4" none none).contentLength = some 5 ∧
      (exportRangeGet 2 tenDigits "bytes=0-4" none none).body = [48, 49, 50, 51] := by
  constructor <;> rfl

/-- Sanity check corresponding to spec scenario S3: with the chunk size not
smaller than the requested length, the embedded handler serves the range
`bytes=2-5` of `0123456789` correctly. -/
theorem exportRangeGet_s3_scenario :
    (exportRangeGet 512 tenDigits "bytes=2-5" none none).contentLength = some 4 ∧
      (exportRangeGet 512 tenDigits "bytes=2-5" none none).body = [50, 51, 52, 53] := by
  constructor <;> rfl

/-- Claim C5: a multipart `Range` (one containing a comma) is claimed to be
rejected with 405 and no bytes streamed.  Evaluating the embedded handler on
`Range: bytes=0-5,10-15` over the file `0123456789` shows status 200 with the
whole file streamed: the source checks whether the string `,` is an element
of the list produced by splitting on `-`, which never holds for an ordinary
multipart value, and the failing `int` parse of `5,10` silently defaults the
range end to the end of the file. -/
theorem exportRangeGet_multipart_not_rejected :
    (exportRangeGet 512 tenDigits "bytes=0-5,10-15" none none).status = 200 ∧
      (exportRangeGet 512 tenDigits "bytes=0-5,10-15" none none).body = tenDigits := by
  constructor <;> rfl

/-- Claim C4: a ranged GET whose `If-Range` value differs from the Etag
`md5(str(mtime))` of the file returns HTTP 400 and streams no file bytes. -/
theorem exportRangeGet_if_range_mismatch (chunkSize : Nat) (file : List Nat)
    (rangeValue : String) (md5hex : String → String) (mtimeStr provided : String)
    (h : provided ≠ md5hex mtimeStr) :
    exportRangeGet chunkSize file rangeValue (some provided)
        (compute_etag md5hex mtimeStr) =
      { status := 400, contentLength := none, body := [],
        message :=
          some "The resource has changed, get everything from the start again" } := by
  simp [exportRangeGet, compute_etag, h]

/-- Witness for claim C4 at a concrete input: `If-Range: deadbeef` against
the identity digest of mtime string `1633036800.0`. -/
theorem exportRangeGet_if_range_mismatch_witness :
    exportRangeGet 512 tenDigits "bytes=0-3" (some "deadbeef")
        (compute_etag (fun s => s) "1633036800.0") =
      { status := 400, contentLength := none, body := [],
        message :=
          some "The resource has changed, get everything from the start again" } :=
  exportRangeGet_if_range_mismatch 512 tenDigits "bytes=0-3" (fun s => s)
    "1633036800.0" "deadbeef" (by decide)

/-! ### Token gate (`AuthRequestHandler.process_token_and_extract_claims`) -/

/-- Tornado status bookkeeping as the gate uses it: `statusCode` is what
`RequestHandler.set_status` writes (`self._status_code`, initially 200), while
`selfStatus` models the separate instance attribute that `self.status = None`
assigns at the top of the method.  `set_status` never touches `selfStatus`. -/
structure TornadoStatus where
  statusCode : Nat := 200
  selfStatus : Option Nat := none
  deriving DecidableEq, Repr

/-- `RequestHandler.set_status`. -/
def set_status (s : TornadoStatus) (code : Nat) : TornadoStatus :=
  { s with statusCode := code }

/-- Python truthiness of `self.status` (`None` and `0` are falsy). -/
def pyTruthyStatus : Option Nat → Bool
  | none => false
  | some n => n != 0

/-- The verdict `process_access_token` (auth.py, outside src/) reports. -/
structure Authnz where
  status : Bool
  reason : String
  deriving DecidableEq, Repr

/-- `AuthRequestHandler.process_token_and_extract_claims` (api.py 144-209).
The collaborators `tenant_from_url` (utils.py) and `process_access_token`
(auth.py) are outside src/ and enter as function arguments.  Returns the final
status bookkeeping together with `some authnz` on success, or `none` when the
method raised.  Two source details matter here: the outermost `except` runs
`if not self.status: self.set_status(401)`, and since `set_status` never
assigns `self.status`, that guard is true on every failure path; and in the
invalid-tenant branch `logging.error(e.message)` raises `AttributeError`
before `set_status(400)` is reached. -/
def process_token_and_extract_claims
    (headers : List (String × String)) (uri : String)
    (tenant_from_url : String → String) (valid_tenant_match : String → Bool)
    (process_access_token : String → String → Authnz) :
    TornadoStatus × Option Authnz :=
  let s : TornadoStatus := { statusCode := 200, selfStatus := none }
  let outer : TornadoStatus → TornadoStatus × Option Authnz := fun s =>
    (if pyTruthyStatus s.selfStatus then s else set_status s 401, none)
  match headers.lookup "Authorization" with
  | none =>
    -- KeyError: message `Missing authorization header`, set_status(400), raise
    outer (set_status s 400)
  | some auth_header =>
    match (pySplit ' ' auth_header)[1]? with
    | none =>
      -- IndexError: message `Malformed authorization header`, set_status(400), raise
      outer (set_status s 400)
    | some _jwt =>
      let tenant := tenant_from_url uri
      if ¬ valid_tenant_match tenant then
        -- assert fails; `logging.error(e.message)` raises AttributeError first,
        -- so the 400 two lines below it is never set
        outer s
      else
        let authnz := process_access_token auth_header tenant
        if ¬ authnz.status then
          -- set_status(401); raise, then the inner handler sets 401 again and raises
          outer (set_status (set_status s 401) 401)
        else
          (s, some authnz)

/-- Claim C3: a missing `Authorization` header is claimed to fail the request
with HTTP 400.  Evaluating the embedded gate shows the final status is 401:
the method does call `set_status(400)`, but its outermost handler then runs
`if not self.status: self.set_status(401)`, and `self.status` is still the
`None` assigned on entry because `set_status` writes `self._status_code`, not
`self.status` - so the guard always fires and 401 overwrites the 400. -/
theorem token_gate_missing_header_is_401 (uri : String)
    (tenant_from_url : String → String) (valid_tenant_match : String → Bool)
    (process_access_token : String → String → Authnz)
    (headers : List (String × String))
    (h : headers.lookup "Authorization" = none) :
    (process_token_and_extract_claims headers uri tenant_from_url
        valid_tenant_match process_access_token).1.statusCode = 401 ∧
      (process_token_and_extract_claims headers uri tenant_from_url
        valid_tenant_match process_access_token).2 = none := by
  simp [process_token_and_extract_claims, h, pyTruthyStatus, set_status]

/-- Witness for claim C3: a concrete request with no headers at all ends the
gate with status 401, not 400. -/
theorem token_gate_missing_header_is_401_witness :
    (process_token_and_extract_claims [] "/v1/p11/files/stream" (fun _ => "p11")
        (fun _ => true) (fun _ _ => { status := true, reason := "" })).1.statusCode
        = 401 ∧
      (process_token_and_extract_claims [] "/v1/p11/files/stream" (fun _ => "p11")
        (fun _ => true) (fun _ _ => { status := true, reason := "" })).2 = none :=
  token_gate_missing_header_is_401 "/v1/p11/files/stream" (fun _ => "p11")
    (fun _ => true) (fun _ _ => { status := true, reason := "" }) [] rfl

/-! ### File modes of the streaming ingestion handler (`StreamHandler.prepare`) -/

/-- `filemodes` (api.py 973). -/
def filemodes : List (String × String) :=
  [("POST", "ab+"), ("PUT", "wb+"), ("PATCH", "wb+")]

/-- `_RW______ = stat.S_IREAD | stat.S_IWRITE` (api.py 80), i.e. mode 0600. -/
def _RW______ : Nat := 0o400 ||| 0o200

/-- How the target file gets opened in the no-custom-content-type branch. -/
inductive OpenKind where
  | handlerOpen    -- `open(self.path, filemode)` followed by `os.chmod(self.path, _RW______)`
  | resumableOpen  -- `self.res.open_file(self.path, filemode)`
  | noOpen         -- completed resumable (`chunk=end`): nothing is opened
  deriving DecidableEq, Repr

/-- The open action of the no-custom-content-type branch: how the file is
opened, with which mode string, and the permission bits the handler itself
sets (none when it never calls `os.chmod`). -/
structure OpenAction where
  kind : OpenKind
  mode : String
  chmodBits : Option Nat
  deriving DecidableEq, Repr

/-- The `else: # no custom content type` branch of `StreamHandler.prepare`
(api.py 1039-1047), together with the `filemode = filemodes[method]` lookup at
api.py 991.  `none` models the `KeyError` a method outside the table raises. -/
def open_target_no_custom_ct (method : String)
    (completed_resumable_file : Bool) : Option OpenAction :=
  match filemodes.lookup method with
  | none => none
  | some filemode =>
    if method ≠ "PATCH" then
      some { kind := .handlerOpen, mode := filemode, chmodBits := some _RW______ }
    else if ¬ completed_resumable_file then
      some { kind := .resumableOpen, mode := filemode, chmodBits := none }
    else
      some { kind := .noOpen, mode := filemode, chmodBits := none }

/-- Claim C6 counterexample: the claim says a PATCH opens the target with mode
`ab+` (and permission bits 0600); the code maps PATCH to `wb+` in `filemodes`
and opens the chunk through the resumable engine without any handler-side
`os.chmod`. -/
theorem open_target_patch_not_ab :
    open_target_no_custom_ct "PATCH" false =
        some { kind := .resumableOpen, mode := "wb+", chmodBits := none } ∧
      (open_target_no_custom_ct "PATCH" false).map OpenAction.mode ≠ some "ab+" ∧
      (open_target_no_custom_ct "PATCH" false).map OpenAction.chmodBits ≠
        some (some _RW______) := by
  decide

/-- Claim C6 as amended: with no custom content type, POST opens the target
with mode `ab+` and PUT with `wb+`, each chmod-ed to 0600 by the handler,
while PATCH (chunk not final) opens the chunk file through the resumable
engine with mode `wb+` and the handler performs no chmod on it. -/
theorem open_target_modes (completed_resumable_file : Bool) :
    open_target_no_custom_ct "POST" completed_resumable_file =
        some { kind := .handlerOpen, mode := "ab+", chmodBits := some 0o600 } ∧
      open_target_no_custom_ct "PUT" completed_resumable_file =
        some { kind := .handlerOpen, mode := "wb+", chmodBits := some 0o600 } ∧
      open_target_no_custom_ct "PATCH" false =
        some { kind := .resumableOpen, mode := "wb+", chmodBits := none } := by
  cases completed_resumable_file <;> decide

/-! ### Export metadata side effect (`FileStreamerHandler.get_file_metadata`) -/

/-- The observable actions of `get_file_metadata`, in program order. -/
inductive MetadataEffect where
  | sudoChmodGoPlusR (path : String)  -- `subprocess.call([sudo, chmod, go+r, filename])`
  | magicFromFile (path : String)     -- `magic.from_file(filename, mime=True)`
  | statSize (path : String)          -- `os.stat(filename).st_size`
  deriving DecidableEq, Repr

/-- Recogniser for the permission-changing effect. -/
def isSudoChmod : MetadataEffect → Bool
  | .sudoChmodGoPlusR _ => true
  | _ => false

/-- `FileStreamerHandler.get_file_metadata` (api.py 279-286) as an effect
trace plus its return value; `size` and `mime_type` are what `os.stat` and
libmagic report for the file. -/
def get_file_metadata (backend filename : String) (size : Nat)
    (mime_type : String) : List MetadataEffect × Nat × String :=
  ((if backend = "files" then [.sudoChmodGoPlusR filename] else []) ++
      [.magicFromFile filename, .statSize filename],
    size, mime_type)

/-- Claim C9: reading export metadata runs `sudo chmod go+r` on the file
exactly when the backend is `files`, and there it runs before the metadata
reads; on every other backend the permission bits are untouched. -/
theorem get_file_metadata_chmod_iff_files (backend filename : String)
    (size : Nat) (mime_type : String) :
    ((get_file_metadata backend filename size mime_type).1.any isSudoChmod ↔
        backend = "files") ∧
      (backend = "files" →
        (get_file_metadata backend filename size mime_type).1 =
          [.sudoChmodGoPlusR filename, .magicFromFile filename,
            .statSize filename]) ∧
      (backend ≠ "files" →
        (get_file_metadata backend filename size mime_type).1 =
          [.magicFromFile filename, .statSize filename]) := by
  unfold get_file_metadata
  by_cases h : backend = "files" <;> simp [h, isSudoChmod]

/-- Witness for claim C9 at concrete inputs: the `files` backend chmods (first
thing it does) while the `store` backend does not. -/
theorem get_file_metadata_chmod_iff_files_witness :
    (get_file_metadata "files" "data.csv" 10 "text/csv").1 =
        [.sudoChmodGoPlusR "data.csv", .magicFromFile "data.csv",
          .statSize "data.csv"] ∧
      (get_file_metadata "store" "data.csv" 10 "text/csv").1 =
        [.magicFromFile "data.csv", .statSize "data.csv"] :=
  ⟨(get_file_metadata_chmod_iff_files "files" "data.csv" 10 "text/csv").2.1 rfl,
    (get_file_metadata_chmod_iff_files "store" "data.csv" 10 "text/csv").2.2
      (by decide)⟩

/-! ### Export directory listing (`FileStreamerHandler.list_files`) -/

/-- `true` when the character list `pat` begins the character list given as
the second argument. -/
def charsBeginWith : List Char → List Char → Bool
  | [], _ => true
  | _ :: _, [] => false
  | a :: as, b :: bs => a = b && charsBeginWith as bs

/-- `true` when the character list `pat` occurs contiguously inside the
second argument. -/
def charsContainSeq (pat : List Char) : List Char → Bool
  | [] => charsBeginWith pat []
  | c :: cs => charsBeginWith pat (c :: cs) || charsContainSeq pat cs

/-- Modelled from the spec: `check_filename` from utils.py, which is not under
src/.  §4.3 Path Guard: given a URL-unescaped filename candidate, "reject if
it contains `/`, `..`, or begins with any character in a configured
disallowed-start set".  Returns `true` when the name is accepted. -/
def check_filename_ok (disallowed_start_chars : List Char)
    (filename : String) : Bool :=
  let cs := filename.toList
  !(cs.contains '/') && !(charsContainSeq ['.', '.'] cs) &&
    (match cs with
     | [] => true
     | c :: _ => !(disallowed_start_chars.contains c))

/-- One entry of a per-tenant export policy, as read from the backend config
(`export_policy`): `max_size` is `none` when the key holds `None`, and Python
treats both `None` and `0` as falsy in the size check. -/
structure ExportPolicy where
  enabled : Bool
  allowed_mime_types : List String
  max_size : Option Nat
  deriving DecidableEq, Repr

/-- Outcome of the export-policy check: the boolean verdict plus the message
left in `self.message` when the verdict is negative. -/
structure PolicyCheck where
  status : Bool
  message : Option String
  deriving DecidableEq, Repr

/-- `FileStreamerHandler.enforce_export_policy` (api.py 233-276).  The
`policy_config[tenant]` / `policy_config[default]` selection is resolved by
the caller, which passes the applicable `policy`. -/
def enforce_export_policy (disallowed_start_chars : List Char)
    (policy : ExportPolicy) (basename : String) (tenant : String)
    (size : Nat) (mime_type : String) : PolicyCheck :=
  if ¬ check_filename_ok disallowed_start_chars basename then
    { status := false, message := some ("Illegal export filename: " ++ basename) }
  else if ¬ policy.enabled then
    { status := true, message := none }
  else
    let st :=
      if policy.allowed_mime_types.contains "*" then true
      else policy.allowed_mime_types.contains mime_type
    let msg :=
      if st then none
      else some ("not allowed to export file with MIME type: " ++ mime_type)
    match policy.max_size with
    | some m =>
      if m ≠ 0 ∧ size > m then
        { status := false,
          message := some ("File size exceeds maximum allowed for " ++ tenant) }
      else { status := st, message := msg }
    | none => { status := st, message := msg }

/-- What `os.listdir` plus the per-entry `os.stat`, `pwd` and libmagic calls
report about one name in the export directory. -/
structure DirEntry where
  name : String
  isDir : Bool
  mtimeIso : String
  owner : String
  size : Nat
  mime_type : String
  deriving DecidableEq, Repr

/-- One element of the `files` array in the listing envelope
(api.py 340-347): Python `None` fields become `none`, and `exportable` keeps
the three-valued `True`/`False`/`None` of the source. -/
structure FileInfo where
  filename : String
  size : Option Nat
  modified_date : String
  href : String
  exportable : Option Bool
  reason : Option String
  mime_type : Option String
  owner : String
  deriving DecidableEq, Repr

/-- The body of the per-entry loop of `FileStreamerHandler.list_files`
(api.py 310-347): directories get `status, mime_type, size = None, None, None`
with the not-supported message as reason, files go through
`get_file_metadata` and `enforce_export_policy`. -/
def list_files_entry (disallowed_start_chars : List Char)
    (policy : ExportPolicy) (request_uri : String)
    (url_escape : String → String) (tenant : String) (e : DirEntry) :
    FileInfo :=
  if e.isDir then
    { filename := e.name, size := none, modified_date := e.mtimeIso,
      href := request_uri ++ "/" ++ url_escape e.name,
      exportable := none,
      reason := some "exporting from directories not supported yet",
      mime_type := none, owner := e.owner }
  else
    let pc := enforce_export_policy disallowed_start_chars policy e.name tenant
      e.size e.mime_type
    { filename := e.name, size := some e.size, modified_date := e.mtimeIso,
      href := request_uri ++ "/" ++ url_escape e.name,
      exportable := some pc.status,
      reason := if pc.status then none else pc.message,
      mime_type := some e.mime_type, owner := e.owner }

/-- `FileStreamerHandler.list_files` (api.py 289-349): reject with 400 when
the directory holds more than `export_max_num_list` entries, otherwise emit
one record per directory entry plus the metadata side effects the loop
performed (one `get_file_metadata` call per non-directory entry). -/
def list_files (backend : String) (disallowed_start_chars : List Char)
    (policy : ExportPolicy) (export_max_num_list : Nat) (path : String)
    (request_uri : String) (url_escape : String → String) (tenant : String)
    (entries : List DirEntry) :
    Except (Nat × String) (List FileInfo × List MetadataEffect) :=
  if entries.length > export_max_num_list then
    .error (400, "too many files, create a zip archive")
  else
    .ok (entries.map
          (list_files_entry disallowed_start_chars policy request_uri
            url_escape tenant),
      (entries.map fun e =>
        if e.isDir then []
        else (get_file_metadata backend (path ++ "/" ++ e.name) e.size
          e.mime_type).1).flatten)

/-- A directory entry sitting in an export directory. -/
def subdirEntry : DirEntry :=
  { name := "subdir", isDir := true, mtimeIso := "2021-10-01T00:00:00",
    owner := "p11-member", size := 0, mime_type := "" }

/-- An ordinary file entry sitting in the same export directory. -/
def aTxtEntry : DirEntry :=
  { name := "a.txt", isDir := false, mtimeIso := "2021-10-02T00:00:00",
    owner := "p11-member", size := 3, mime_type := "text/plain" }

/-- A disabled export policy (`enabled: False`), under which every file is
exportable. -/
def disabledPolicy : ExportPolicy :=
  { enabled := false, allowed_mime_types := [], max_size := none }

/-- Claim C8 counterexample: the claim says the listing envelope contains no
entries that are directories; listing an export directory whose only entry is
the directory `subdir` returns an envelope that does contain it (marked
unexportable, but present). -/
theorem list_files_includes_directories :
    (list_files "store" [] disabledPolicy 100 "/data/p11"
        "/v1/p11/store/export" (fun s => s) "p11" [subdirEntry]).toOption.map
        (fun r => r.1.map FileInfo.filename) = some ["subdir"] := by
  decide

/-- Claim C8 as amended: when the entry count is within the limit, the
listing envelope contains exactly one record per directory entry - directory
entries included - and every directory entry appears with `exportable` null,
reason `exporting from directories not supported yet`, and null size and
mime-type, rather than being excluded. -/
theorem list_files_directory_entries_marked (backend : String)
    (disallowed_start_chars : List Char) (policy : ExportPolicy)
    (export_max_num_list : Nat) (path request_uri : String)
    (url_escape : String → String) (tenant : String)
    (entries : List DirEntry)
    (h : entries.length ≤ export_max_num_list) :
    ∃ infos effects,
      list_files backend disallowed_start_chars policy export_max_num_list
          path request_uri url_escape tenant entries = .ok (infos, effects) ∧
        infos.map FileInfo.filename = entries.map DirEntry.name ∧
        ∀ e ∈ entries, e.isDir = true →
          ∃ info ∈ infos, info.filename = e.name ∧ info.exportable = none ∧
            info.reason = some "exporting from directories not supported yet" ∧
            info.size = none ∧ info.mime_type = none := by
  refine ⟨entries.map (list_files_entry disallowed_start_chars policy
      request_uri url_escape tenant),
    (entries.map fun e =>
      if e.isDir then []
      else (get_file_metadata backend (path ++ "/" ++ e.name) e.size
        e.mime_type).1).flatten, ?_, ?_, ?_⟩
  · unfold list_files
    rw [if_neg (by omega)]
  · rw [List.map_map]
    refine List.map_congr_left fun e _ => ?_
    unfold list_files_entry
    by_cases hd : e.isDir <;> simp [hd]
  · intro e he hd
    refine ⟨list_files_entry disallowed_start_chars policy request_uri
      url_escape tenant e, List.mem_map_of_mem _ he, ?_⟩
    simp [list_files_entry, hd]

/-- Witness for the amended claim C8: a two-entry directory (one
sub-directory, one file) listed within the limit. -/
theorem list_files_directory_entries_marked_witness :
    ∃ infos effects,
      list_files "store" [] disabledPolicy 100 "/data/p11"
          "/v1/p11/store/export" (fun s => s) "p11" [subdirEntry, aTxtEntry]
          = .ok (infos, effects) ∧
        infos.map FileInfo.filename =
          ([subdirEntry, aTxtEntry].map DirEntry.name) ∧
        ∀ e ∈ [subdirEntry, aTxtEntry], e.isDir = true →
          ∃ info ∈ infos, info.filename = e.name ∧ info.exportable = none ∧
            info.reason = some "exporting from directories not supported yet" ∧
            info.size = none ∧ info.mime_type = none :=
  list_files_directory_entries_marked "store" [] disabledPolicy 100
    "/data/p11" "/v1/p11/store/export" (fun s => s) "p11"
    [subdirEntry, aTxtEntry] (by decide)

/-! ### Ingestion cleanup (`StreamHandler.on_finish` / `on_connection_close`) -/

/-- A flat association list modelling the import directory: path to file
content. -/
abbrev Fs := List (String × String)

/-- `os.path.lexists`. -/
def fs_lexists (fs : Fs) (p : String) : Bool :=
  (fs.lookup p).isSome

/-- Bind `p` to `v`, shadowing any previous binding. -/
def fs_set (fs : Fs) (p v : String) : Fs :=
  (p, v) :: fs.filter fun kv => kv.1 != p

/-- `os.rename(src, dst)`: `none` models the `OSError` raised when `src` does
not exist. -/
def fs_rename (fs : Fs) (src dst : String) : Option Fs :=
  match fs.lookup src with
  | none => none
  | some v => some (fs_set (fs.filter fun kv => kv.1 != src) dst v)

/-- The `StreamHandler` fields that its two cleanup callbacks read.
`target_file` is `none` when `self.target_file` is `None`, `some true` for an
open file object and `some false` for a closed one; `path` and `path_part`
carry the values after the swap in `prepare` (during an upload, `path` is the
`.part` name being written and `path_part` the visible name). -/
structure StreamCleanupState where
  fs : Fs
  target_file : Option Bool
  path : Option String
  path_part : Option String
  backend : String
  tenant : String
  request_hook_enabled : Bool
  requestor : String
  group_name : String
  method : String
  chunk_num : String
  completed_resumable_file : Bool
  completed_resumable_filename : Option String
  deriving DecidableEq, Repr

/-- The externally visible actions a cleanup callback can perform, in program
order. -/
inductive CleanupEffect where
  | closeFile
  | renameFile (src dst : String)
  | requestHook (path : Option String) (requestor api_user group : String)
  deriving DecidableEq, Repr

/-- Recogniser for the rename action. -/
def isRenameEffect : CleanupEffect → Bool
  | .renameFile _ _ => true
  | _ => false

/-- `StreamHandler.on_connection_close` (api.py 1214-1233), called when the
client disconnects.  If the file is open it is closed; then for the cluster
backend the comparison `tenant != p01` reads the free module-level name
`tenant`, which does not exist, so a `NameError` escapes right after the
close (the surrounding `except AttributeError` does not catch it); for every
other backend the request hook is invoked with `self.path` when enabled.  No
branch renames anything or touches the filesystem. -/
def on_connection_close (api_user : String) (s : StreamCleanupState) :
    StreamCleanupState × List CleanupEffect :=
  match s.target_file with
  | some true =>
    let s1 := { s with target_file := some false }
    if s.backend = "cluster" then
      (s1, [.closeFile])
    else if s.request_hook_enabled then
      (s1, [.closeFile, .requestHook s.path s.requestor api_user s.group_name])
    else
      (s1, [.closeFile])
  | _ => (s, [])
    -- `self.target_file.closed` on `None` raises AttributeError, which the
    -- handler logs and swallows; a closed file fails the `if not ... .closed`

/-- `StreamHandler.on_finish` (api.py 1180-1211), called at the very end of a
finished request: close-and-rename if the file is still open (a `TypeError`
from `os.rename(None, ...)` is not the `AttributeError` the clause catches
and escapes), then, for PUT, POST or a final PATCH, invoke the request hook
unless the backend is the excepted cluster case. -/
def on_finish (api_user : String) (s : StreamCleanupState) :
    StreamCleanupState × List CleanupEffect :=
  let step1 : StreamCleanupState × List CleanupEffect × Bool :=
    match s.target_file with
    | some true =>
      match s.path, s.path_part with
      | some p, some pp =>
        match fs_rename s.fs p pp with
        | some fs1 =>
          ({ s with target_file := some false, fs := fs1 },
            [CleanupEffect.closeFile, .renameFile p pp], false)
        | none =>
          -- OSError from a missing source escapes the AttributeError clause
          ({ s with target_file := some false }, [CleanupEffect.closeFile], true)
      | _, _ =>
        -- os.rename(None, _) raises TypeError, escaping the clause
        ({ s with target_file := some false }, [CleanupEffect.closeFile], true)
    | _ => (s, [], false)
  let s1 := step1.1
  let eff1 := step1.2.1
  if step1.2.2 then (s1, eff1)
  else if s.method = "PUT" ∨ s.method = "POST" ∨
      (s.method = "PATCH" ∧ s.chunk_num = "end") then
    let path : Option String :=
      if ¬ s.completed_resumable_file then s.path_part
      else s.completed_resumable_filename
    if s.completed_resumable_file ∧ s.completed_resumable_filename = none then
      (s1, eff1)  -- missing attribute: AttributeError caught by `except Exception`
    else if s.backend = "cluster" ∧ s.tenant ≠ "p01" then
      (s1, eff1)
    else if s.request_hook_enabled then
      (s1, eff1 ++ [.requestHook path s.requestor api_user s.group_name])
    else (s1, eff1)
  else (s1, eff1)

/-- A PUT upload caught mid-body: the visible name `myfile` holds nothing,
the bytes so far live under the staging name `myfile.3f.part`, and the file
object is open. -/
def midUploadState : StreamCleanupState :=
  { fs := [("myfile.3f.part", "AB")], target_file := some true,
    path := some "myfile.3f.part", path_part := some "myfile",
    backend := "files", tenant := "p11", request_hook_enabled := true,
    requestor := "user1", group_name := "p11-member-group", method := "PUT",
    chunk_num := "1", completed_resumable_file := false,
    completed_resumable_filename := none }

/-- Claim C7 counterexample: the claim says a client disconnect makes the
handler close the open file **and** rename between the visible path and its
`.part` staging name.  Running the embedded `on_connection_close` on a
concrete mid-upload state closes the file but performs no rename at all and
leaves the filesystem untouched. -/
theorem on_connection_close_never_renames :
    ((on_connection_close "fileapi" midUploadState).1.target_file
        = some false) ∧
      ((on_connection_close "fileapi" midUploadState).2.any isRenameEffect
        = false) ∧
      ((on_connection_close "fileapi" midUploadState).1.fs
        = midUploadState.fs) := by
  decide

/-- Claim C7 as amended: on a client disconnect with an open file,
`on_connection_close` closes the handle (and, for non-cluster backends with
the hook enabled, invokes the request hook), but performs no rename and
leaves the filesystem unchanged; in particular any path unbound before the
disconnect - such as the visible target name, to which body bytes were never
written - stays unbound, and a subsequent `on_finish` sees the file already
closed and performs no rename either. -/
theorem on_connection_close_closes_without_rename (api_user : String)
    (s : StreamCleanupState) (visible : String)
    (hopen : s.target_file = some true)
    (hvis : s.fs.lookup visible = none) :
    ((on_connection_close api_user s).1.target_file = some false) ∧
      ((on_connection_close api_user s).1.fs = s.fs) ∧
      ((on_connection_close api_user s).2.any isRenameEffect = false) ∧
      ((on_connection_close api_user s).1.fs.lookup visible = none) ∧
      ((on_finish api_user (on_connection_close api_user s).1).1.fs = s.fs) ∧
      ((on_finish api_user (on_connection_close api_user s).1).2.any
        isRenameEffect = false) := by
  have hcc :
      (on_connection_close api_user s).1 = { s with target_file := some false }
        ∧ (on_connection_close api_user s).2.any isRenameEffect = false := by
    unfold on_connection_close
    rw [hopen]
    by_cases hb : s.backend = "cluster" <;>
      by_cases hh : s.request_hook_enabled <;>
        simp [hb, hh, isRenameEffect]
  have hof :
      (on_finish api_user { s with target_file := some false }).1
          = { s with target_file := some false } ∧
        (on_finish api_user { s with target_file := some false }).2.any
          isRenameEffect = false := by
    unfold on_finish
    simp only
    split_ifs <;> simp [isRenameEffect]
  refine ⟨?_, ?_, hcc.2, ?_, ?_, ?_⟩
  · rw [hcc.1]
  · rw [hcc.1]
  · rw [hcc.1]; exact hvis
  · rw [hcc.1, hof.1]
  · rw [hcc.1, hof.2]

/-- Witness for the amended claim C7 at the concrete mid-upload state. -/
theorem on_connection_close_closes_without_rename_witness :
    ((on_connection_close "fileapi" midUploadState).1.target_file
        = some false) ∧
      ((on_connection_close "fileapi" midUploadState).1.fs
        = midUploadState.fs) ∧
      ((on_connection_close "fileapi" midUploadState).2.any isRenameEffect
        = false) ∧
      ((on_connection_close "fileapi" midUploadState).1.fs.lookup "myfile"
        = none) ∧
      ((on_finish "fileapi"
          (on_connection_close "fileapi" midUploadState).1).1.fs
        = midUploadState.fs) ∧
      ((on_finish "fileapi"
          (on_connection_close "fileapi" midUploadState).1).2.any
        isRenameEffect = false) :=
  on_connection_close_closes_without_rename "fileapi" midUploadState "myfile"
    rfl (by decide)

/-! ### Resumable PATCH preparation (`StreamHandler.prepare`) -/

/-- Python exception classes the prepare flow distinguishes: the bare
`raise Exception`, the `TypeError` from `os.rename(None, ...)`, the
`AttributeError` its rescue clause catches, and the `KeyError` from a missing
header. -/
inductive PyExc where
  | generic
  | typeError
  | attributeError
  | keyError
  deriving DecidableEq, Repr

/-- Modelled from the spec: the per-upload record kept by `SerialResumable`
(resumables.py is not under src/).  §3: an in-progress upload records the
growing merged file, its size, the highest merged chunk number
(`last_chunk_num` / `last_merged`), and the owning requestor. -/
structure ResumableState where
  last_merged : Nat
  merged_size : Nat
  merged_data : List Nat
  owner : String
  deriving DecidableEq, Repr

/-- The five values `StreamHandler.prepare` unpacks from
`self.res.prepare(...)` (api.py 1002-1008). -/
structure PrepareOutcome where
  chunk_num : String
  upload_id : String
  completed_resumable_file : Bool
  chunk_order_correct : Bool
  filename : String
  deriving DecidableEq, Repr

/-- Modelled from the spec: `SerialResumable.prepare` (resumables.py, not
under src/).  §4.5: it returns `(chunk_num, upload_id, is_final,
chunk_order_ok, staged_filename)`; "A chunk with `N ≤ last_merged` is
rejected ... and no side-effect"; `chunk=end` requests finalisation of the
growing `<target>.data` file; an accepted ordinary chunk is staged under the
`<target>.chunk.<N>` name.  In every case here the resumable record itself is
returned unchanged - `prepare` only inspects it. -/
def serial_resumable_prepare (st : ResumableState)
    (filename chunk_arg upload_id : String) : ResumableState × PrepareOutcome :=
  if chunk_arg = "end" then
    (st, { chunk_num := chunk_arg, upload_id := upload_id,
           completed_resumable_file := true, chunk_order_correct := true,
           filename := filename ++ ".data" })
  else
    match pyInt chunk_arg with
    | some n =>
      if n ≤ st.last_merged then
        (st, { chunk_num := chunk_arg, upload_id := upload_id,
               completed_resumable_file := false, chunk_order_correct := false,
               filename := filename })
      else
        (st, { chunk_num := chunk_arg, upload_id := upload_id,
               completed_resumable_file := false, chunk_order_correct := true,
               filename := filename ++ ".chunk." ++ chunk_arg })
    | none =>
      (st, { chunk_num := chunk_arg, upload_id := upload_id,
             completed_resumable_file := false, chunk_order_correct := false,
             filename := filename })

/-- The mutable state `StreamHandler.prepare` builds up for a PATCH request:
the filesystem, the resumable record, and the handler fields initialised at
api.py 967-972 and reassigned as the method proceeds. -/
structure StreamPrepState where
  fs : Fs
  res : ResumableState
  target_file : Option Bool
  path : Option String
  path_part : Option String
  chunk_order_correct : Bool
  completed_resumable_file : Bool
  chunk_num : String
  upload_id : String
  status_code : Nat
  deriving DecidableEq, Repr

/-- The JSON envelope `self.finish(...)` writes when `prepare` ends the
request early. -/
structure PrepResponse where
  status : Nat
  message : String
  deriving DecidableEq, Repr

/-- The innermost `try` of `StreamHandler.prepare` (api.py 992-1047),
specialised to a PATCH request whose content type is none of the custom
transform types (the chunk-order rejection at api.py 1009-1010 happens before
the content-type dispatch either way).  `check_filename` (utils.py, outside
src/) returns `none` when it raises; `uuid` is the random suffix drawn for
the `.part` name.  Import-directory entries are modelled as regular files, so
the `os.path.isdir` special case at api.py 1018-1020 does not arise. -/
def stream_prepare_inner (tenant_dir : String)
    (check_filename : String → Option String) (content_type : Option String)
    (uri_filename chunk_arg upload_id_arg uuid : String)
    (v : StreamPrepState) : StreamPrepState × Option PyExc :=
  match content_type with
  | none => (v, some .keyError)  -- headers[Content-Type] raises KeyError
  | some _ct =>
    match check_filename uri_filename with
    | none => (v, some .generic)
    | some filename =>
      let ro := serial_resumable_prepare v.res filename chunk_arg upload_id_arg
      let v := { v with
        res := ro.1, chunk_num := ro.2.chunk_num,
        upload_id := ro.2.upload_id,
        completed_resumable_file := ro.2.completed_resumable_file,
        chunk_order_correct := ro.2.chunk_order_correct }
      if ¬ ro.2.chunk_order_correct then
        (v, some .generic)  -- api.py 1009-1010: raise before any path is set
      else
        let p := tenant_dir ++ "/" ++ ro.2.filename
        let pp := p ++ "." ++ uuid ++ ".part"
        let v := { v with path := some p, path_part := some pp }
        if fs_lexists v.fs pp then
          (v, some .generic)  -- active upload on the same name: kill request
        else
          let v :=
            if fs_lexists v.fs p then
              match fs_rename v.fs p pp with
              | some fs1 => { v with fs := fs1 }
              | none => v  -- unreachable: the source was just seen to exist
            else v
          -- self.path, self.path_part = self.path_part, self.path
          let v := { v with path := some pp, path_part := some p }
          -- no custom content type, PATCH: open through the resumable engine
          let v :=
            if ¬ v.completed_resumable_file then
              { v with target_file := some true }
            else v
          (v, none)

/-- The `except Exception` rescue at api.py 1050-1058: close the file if one
is open, then `os.rename(self.path, self.path_part)`.  Only `AttributeError`
is swallowed, so the `TypeError` from renaming while `self.path` is `None`,
or an `OSError` from a missing source, propagates to the outermost handler;
when the rename does succeed the exception counts as handled and `prepare`
returns normally. -/
def stream_prepare_rescue (v : StreamPrepState) :
    StreamPrepState × Option PyExc :=
  let v :=
    match v.target_file with
    | some _ => { v with target_file := some false }
    | none => v
  match v.path, v.path_part with
  | some p, some pp =>
    match fs_rename v.fs p pp with
    | some fs1 => ({ v with fs := fs1 }, none)
    | none => (v, some .generic)
  | _, _ => (v, some .typeError)

/-- `StreamHandler.prepare` (api.py 952-1065) for a PATCH request that passed
authorization and tenant validation, assembled from `stream_prepare_inner`
and `stream_prepare_rescue` exactly as the source nests its `try` blocks,
with the field initialisations of api.py 967-972.  The second component is
`some response` when `prepare` ended the request via `self.finish`
(api.py 1059-1065). -/
def stream_handler_prepare_patch (tenant_dir : String)
    (check_filename : String → Option String) (content_type : Option String)
    (uri_filename chunk_arg upload_id_arg uuid : String)
    (fs : Fs) (res : ResumableState) :
    StreamPrepState × Option PrepResponse :=
  let v0 : StreamPrepState :=
    { fs := fs, res := res, target_file := none, path := none,
      path_part := none, chunk_order_correct := true,
      completed_resumable_file := false, chunk_num := "", upload_id := "",
      status_code := 200 }
  match stream_prepare_inner tenant_dir check_filename content_type
      uri_filename chunk_arg upload_id_arg uuid v0 with
  | (v, none) => (v, none)
  | (v, some _e) =>
    match stream_prepare_rescue v with
    | (v, none) => (v, none)
    | (v, some _e2) =>
      if v.chunk_order_correct = false then
        ({ v with status_code := 200 },
          some { status := 200, message := "chunk_order_incorrect" })
      else
        (v, some { status := v.status_code,
                   message := "stream processing failed" })

/-- Claim C1: a PATCH whose chunk number is at most the last merged chunk
number of its upload is answered with HTTP 200 and the envelope
`chunk_order_incorrect`, and nothing changes server side: the filesystem and
the resumable record come back exactly as they were, no chunk file is opened,
and no path was ever computed for it. -/
theorem patch_out_of_order_chunk_rejected (tenant_dir : String)
    (check_filename : String → Option String) (content_type : String)
    (uri_filename filename chunk_arg upload_id_arg uuid : String) (n : Nat)
    (fs : Fs) (res : ResumableState)
    (hcf : check_filename uri_filename = some filename)
    (hn : pyInt chunk_arg = some n)
    (hle : n ≤ res.last_merged) :
    stream_handler_prepare_patch tenant_dir check_filename (some content_type)
        uri_filename chunk_arg upload_id_arg uuid fs res =
      ({ fs := fs, res := res, target_file := none, path := none,
         path_part := none, chunk_order_correct := false,
         completed_resumable_file := false, chunk_num := chunk_arg,
         upload_id := upload_id_arg, status_code := 200 },
        some { status := 200, message := "chunk_order_incorrect" }) := by
  have hend : chunk_arg ≠ "end" := by
    intro h
    rw [h] at hn
    have h2 : pyInt "end" = none := by decide
    rw [h2] at hn
    exact Option.noConfusion hn
  simp [stream_handler_prepare_patch, stream_prepare_inner,
    serial_resumable_prepare, stream_prepare_rescue, hcf, hn, hend, hle]

/-- Witness for claim C1: chunk 2 arriving after chunks up to 3 were already
merged is rejected with the 200 envelope and leaves the concrete state
untouched. -/
theorem patch_out_of_order_chunk_rejected_witness :
    stream_handler_prepare_patch "/data/p11" (fun s => some s)
        (some "application/octet-stream") "file.bin" "2" "u-1234" "ab12"
        [("other.bin", "xyz")]
        { last_merged := 3, merged_size := 8, merged_data := [1, 2],
          owner := "user1" } =
      ({ fs := [("other.bin", "xyz")],
         res := { last_merged := 3, merged_size := 8, merged_data := [1, 2],
                  owner := "user1" },
         target_file := none, path := none, path_part := none,
         chunk_order_correct := false, completed_resumable_file := false,
         chunk_num := "2", upload_id := "u-1234", status_code := 200 },
        some { status := 200, message := "chunk_order_incorrect" }) :=
  patch_out_of_order_chunk_rejected "/data/p11" (fun s => some s)
    "application/octet-stream" "file.bin" "file.bin" "2" "u-1234" "ab12" 2
    [("other.bin", "xyz")]
    { last_merged := 3, merged_size := 8, merged_data := [1, 2],
      owner := "user1" } rfl (by decide) (by decide)

/-! ### Proxy handler (`ProxyHandler.prepare`) -/

/-- Python `%s` formatting of a possibly-`None` value: `None` renders as the
string `None`. -/
def pyStrOpt : Option String → String
  | none => "None"
  | some s => s

/-- Step 4 of `ProxyHandler.prepare` (api.py 1269-1284): determine the upload
filename.  With six or more `/`-separated URI segments the last segment
(minus any query string) is unescaped and validated; otherwise the `Filename`
header is validated - and if that header is absent, the `KeyError` is caught
and the name defaults to `datetime.datetime.now().isoformat()` plus `.txt`.
`check_filename` (utils.py) and tornado `url_unescape` are outside src/ and
enter as function arguments, with `none` for a `check_filename` rejection;
the overall `none` means the request fails. -/
def proxy_set_filename (uri : String) (headers : List (String × String))
    (check_filename : String → Option String)
    (url_unescape : String → String) (now_iso : String) : Option String :=
  let uri_parts := pySplit '/' uri
  if uri_parts.length ≥ 6 then
    let basename := uri_parts.getLastD ""
    let filename := (pySplit '?' basename).headD ""
    check_filename (url_unescape filename)
  else
    match headers.lookup "Filename" with
    | none => some (now_iso ++ ".txt")
    | some f => check_filename f

/-- Step 7 of `ProxyHandler.prepare` (api.py 1331-1341): the query parameters
and the URL of the internal request to the co-hosted `upload_stream`
handler. -/
def proxy_internal_url (port : Nat) (tenant backend : String)
    (url_escape : String → String) (filename : String)
    (chunk_num upload_id : Option String) (group_name : String) : String :=
  let params := "?group=" ++ group_name ++ "&chunk=" ++ pyStrOpt chunk_num ++
    "&id=" ++ pyStrOpt upload_id
  "http://localhost:" ++ toString port ++ "/v1/" ++ tenant ++ "/" ++ backend ++
    "/upload_stream/" ++ url_escape filename ++ params

/-- Steps 4 to 7 of `ProxyHandler.prepare` (api.py 1269-1341): filename
determination, group validation and construction of the forwarded request's
URL.  `groups_claim` is `none` when reading `claims[groups]` raises (basic
auth / anonymous callers), in which case both the group name and the
membership list default; `group_arg`, `chunk_arg` and `id_arg` are the query
arguments.  `IS_VALID_GROUPNAME` (utils.py) enters as a function argument.
`none` means `prepare` fails the request (the outer `except` answers 401). -/
def proxy_prepare_forward (port : Nat) (uri : String)
    (headers : List (String × String))
    (check_filename : String → Option String)
    (url_unescape url_escape : String → String)
    (is_valid_groupname : String → Bool) (now_iso : String)
    (tenant backend : String) (groups_claim : Option (List String))
    (group_arg chunk_arg id_arg : Option String) : Option String :=
  match proxy_set_filename uri headers check_filename url_unescape now_iso with
  | none => none
  | some filename =>
    let gp :=
      match groups_claim with
      | some gs =>
        (match group_arg with
         | some g => g
         | none => tenant ++ "-member-group", gs)
      | none =>
        (tenant ++ "-member-group", [tenant ++ "-member-group"])
    let group_name := gp.1
    let group_memberships := gp.2
    if ¬ is_valid_groupname group_name then none
    else if ¬ (tenant = (pySplit '-' group_name).headD "") then none
    else if ¬ group_memberships.contains group_name then none
    else
      let cu :=
        match chunk_arg with
        | none => ((none : Option String), (none : Option String))
        | some c => (some c, id_arg)
      some (proxy_internal_url port tenant backend url_escape filename cu.1
        cu.2 group_name)

/-- Claim C10: a proxy ingestion request whose URI has fewer than six
`/`-separated segments and which carries no `Filename` header is not
rejected: the filename is set to the ISO timestamp plus `.txt` and the body
is forwarded to the internal `upload_stream` URL under that (escaped) name.
The group hypotheses say the defaulted member group passes its checks, which
is the case whenever the tenant name itself contains no dash. -/
theorem proxy_no_filename_defaults_to_timestamp (port : Nat) (uri : String)
    (headers : List (String × String))
    (check_filename : String → Option String)
    (url_unescape url_escape : String → String)
    (is_valid_groupname : String → Bool) (now_iso tenant backend : String)
    (h6 : (pySplit '/' uri).length < 6)
    (hhdr : headers.lookup "Filename" = none)
    (hvg : is_valid_groupname (tenant ++ "-member-group") = true)
    (hsplit : (pySplit '-' (tenant ++ "-member-group")).headD "" = tenant) :
    proxy_set_filename uri headers check_filename url_unescape now_iso =
        some (now_iso ++ ".txt") ∧
      proxy_prepare_forward port uri headers check_filename url_unescape
          url_escape is_valid_groupname now_iso tenant backend none none none
          none =
        some (proxy_internal_url port tenant backend url_escape
          (now_iso ++ ".txt") none none (tenant ++ "-member-group")) := by
  have hfn : proxy_set_filename uri headers check_filename url_unescape
      now_iso = some (now_iso ++ ".txt") := by
    unfold proxy_set_filename
    rw [if_neg (by omega), hhdr]
  refine ⟨hfn, ?_⟩
  unfold proxy_prepare_forward
  rw [hfn]
  rw [List.headD_eq_head?] at hsplit
  simp [hvg, hsplit]

/-- Witness for claim C10: the short URI `/v1/p11/files/stream` (five
segments) with no `Filename` header forwards under the minted timestamp
name. -/
theorem proxy_no_filename_defaults_to_timestamp_witness :
    proxy_set_filename "/v1/p11/files/stream" [] (fun s => some s)
        (fun s => s) "2020-02-20T12:00:00" = some "2020-02-20T12:00:00.txt" ∧
      proxy_prepare_forward 3003 "/v1/p11/files/stream" [] (fun s => some s)
          (fun s => s) (fun s => s) (fun _ => true) "2020-02-20T12:00:00"
          "p11" "files" none none none none =
        some (proxy_internal_url 3003 "p11" "files" (fun s => s)
          "2020-02-20T12:00:00.txt" none none "p11-member-group") :=
  proxy_no_filename_defaults_to_timestamp 3003 "/v1/p11/files/stream" []
    (fun s => some s) (fun s => s) (fun s => s) (fun _ => true)
    "2020-02-20T12:00:00" "p11" "files" (by decide) rfl rfl (by decide)

end TsdFileApi
